import Mathlib

/-!
Verification of the GeoGuardian change-detection core.

This file shallowly embeds the change-detection and fusion core of the
GeoGuardian backend (`app/algorithms/cusum.py`, `app/algorithms/ewma.py`,
`app/algorithms/temporal_analyzer.py`, `app/core/spectral_analyzer.py`,
`app/core/fusion_engine.py`, `app/core/fusion_config.py`) and proves
properties of the embedded definitions.

Modelling conventions:
* Python floats are modelled as rationals (`ℚ`).  NaN is modelled by
  `Option ℚ` on inputs that the source explicitly tests with `np.isnan`
  (`none` = NaN).  All margins in the concrete computations below are far
  from float rounding error, so every comparison in scope decides the same
  way over `ℚ` as over IEEE doubles.
* Python dicts whose keys are strings are modelled as association lists
  (`List (String × ℚ)`) with `List.lookup`; dict keys are unique, and
  `lookup` returns the unique binding.
* Square roots (inside `np.std` and the EWMA control-limit formula) are
  irrational, so those library calls are modelled by an explicit function
  parameter; every theorem that touches them holds for every choice of
  that parameter.
* Mutating methods become state-passing functions `State → args → Result × State`.
-/

namespace GeoGuardian

/-! ## CUSUM detector (`app/algorithms/cusum.py`) -/

/-- Embedding of `CUSUMConfig` from `cusum.py` (defaults `drift_k=0.5`, `threshold_h=5.0`,
`reset_after_detection=True`, `min_observations=5`, `bilateral=True`). -/
structure CUSUMConfig where
  drift_k : ℚ := 1/2
  threshold_h : ℚ := 5
  reset_after_detection : Bool := true
  min_observations : ℕ := 5
  bilateral : Bool := true
  deriving Repr, DecidableEq

/-- One record of `self.change_points` in `CUSUMDetector.detect_change`. -/
structure ChangePoint where
  observation_index : ℕ
  change_type : String
  confidence : ℚ
  s_plus : ℚ
  s_minus : ℚ
  observation_value : ℚ
  standardized_value : ℚ
  deriving Repr, DecidableEq

/-- The metadata dictionary returned by `CUSUMDetector.detect_change`.
The error branches return `{"error": msg}`; the valid branch returns the
full record built at lines 129-141 of `cusum.py`. -/
inductive CUSUMMeta where
  | err (msg : String)
  | ok (observation standardized s_plus s_minus baseline_mean baseline_std : ℚ)
      (observation_count : ℕ) (upper_alarm lower_alarm : Bool)
  deriving Repr, DecidableEq

/-- Mutable state of a `CUSUMDetector` as established by `reset()`:
`s_plus`, `s_minus`, `observation_count`, the change-point log and the
processing history. -/
structure CUSUMState where
  s_plus : ℚ := 0
  s_minus : ℚ := 0
  observation_count : ℕ := 0
  change_points : List ChangePoint := []
  history : List CUSUMMeta := []
  deriving Repr, DecidableEq

/-- Embedding of `CUSUMDetector.reset`. -/
def CUSUMState.reset : CUSUMState := {}

/-- The tuple returned by `CUSUMDetector.detect_change`. -/
structure CUSUMOutcome where
  change_detected : Bool
  change_type : String
  confidence : ℚ
  metadata : CUSUMMeta
  deriving Repr, DecidableEq

/-- Embedding of `CUSUMDetector.detect_change` of `cusum.py`.  Inputs are `Option ℚ`
with `none` playing the role of NaN; the two guard clauses mirror lines
95-99 of the source, the update and recording logic mirrors lines 101-165. -/
def detectChangeCUSUM (cfg : CUSUMConfig) (st : CUSUMState)
    (observation baseline_mean baseline_std : Option ℚ) :
    CUSUMOutcome × CUSUMState :=
  match observation, baseline_mean, baseline_std with
  | some obs, some mu, some sigma =>
    if sigma ≤ 0 then
      (⟨false, "none", 0, .err "Invalid baseline standard deviation"⟩, st)
    else
      let z := (obs - mu) / sigma
      let sPlus := max 0 (st.s_plus + z - cfg.drift_k)
      let sMinus := if cfg.bilateral then max 0 (st.s_minus - z - cfg.drift_k) else st.s_minus
      let count := st.observation_count + 1
      let upperAlarm : Bool := decide (cfg.threshold_h ≤ sPlus)
      let lowerAlarm : Bool := cfg.bilateral && decide (cfg.threshold_h ≤ sMinus)
      let changeDetected := upperAlarm || lowerAlarm
      let changeType := if upperAlarm then "increase" else if lowerAlarm then "decrease" else "none"
      let confidence : ℚ :=
        if upperAlarm then min (sPlus / cfg.threshold_h) 2 / 2
        else if lowerAlarm then min (sMinus / cfg.threshold_h) 2 / 2
        else 0
      let meta := CUSUMMeta.ok obs z sPlus sMinus mu sigma count upperAlarm lowerAlarm
      let recorded := changeDetected && decide (cfg.min_observations ≤ count)
      let changePoints :=
        if recorded then
          st.change_points ++ [⟨count, changeType, confidence, sPlus, sMinus, obs, z⟩]
        else st.change_points
      let sPlusFinal := if recorded && cfg.reset_after_detection then 0 else sPlus
      let sMinusFinal := if recorded && cfg.reset_after_detection then 0 else sMinus
      (⟨changeDetected, changeType, confidence, meta⟩,
       { s_plus := sPlusFinal, s_minus := sMinusFinal, observation_count := count,
         change_points := changePoints, history := st.history ++ [meta] })
  | _, _, _ => (⟨false, "none", 0, .err "NaN values in input"⟩, st)

/-- The per-observation lists accumulated by `CUSUMDetector.process_time_series`. -/
structure CUSUMSeriesResult where
  change_flags : List Bool
  change_types : List String
  confidence_scores : List ℚ
  change_points : List ChangePoint
  deriving Repr, DecidableEq

/-- Embedding of `CUSUMDetector.process_time_series`: resets the detector, feeds every
observation through `detect_change`, and collects the outcomes (the
purely derived summary statistics of lines 204-228 are omitted). -/
def processTimeSeriesCUSUM (cfg : CUSUMConfig) (_st : CUSUMState)
    (series : List (Option ℚ)) (baseline_mean baseline_std : Option ℚ) :
    CUSUMSeriesResult × CUSUMState :=
  let step := fun (acc : CUSUMSeriesResult × CUSUMState) (obs : Option ℚ) =>
    let pr := detectChangeCUSUM cfg acc.2 obs baseline_mean baseline_std
    (⟨acc.1.change_flags ++ [pr.1.change_detected],
      acc.1.change_types ++ [pr.1.change_type],
      acc.1.confidence_scores ++ [pr.1.confidence],
      pr.2.change_points⟩, pr.2)
  series.foldl step (⟨[], [], [], []⟩, CUSUMState.reset)

/-- The spatial maps produced by `CUSUMDetector.process_spatial_data`
(the derived percentage statistics of lines 294-315 are omitted). -/
structure CUSUMSpatialResult where
  change_map : List (List Bool)
  confidence_map : List (List ℚ)
  deriving Repr, DecidableEq

/-- One pixel of `CUSUMDetector.process_spatial_data`: if the analysis mask
selects the pixel, the detector is reset and `detect_change` is run on it;
otherwise maps keep their zero-initialised entries and the state is untouched. -/
def spatialPixelCUSUM (cfg : CUSUMConfig) (st : CUSUMState)
    (pixel : Option ℚ) (maskBit : Bool) (baseline_mean baseline_std : Option ℚ) :
    (Bool × ℚ) × CUSUMState :=
  if maskBit then
    let pr := detectChangeCUSUM cfg CUSUMState.reset pixel baseline_mean baseline_std
    ((pr.1.change_detected, pr.1.confidence), pr.2)
  else ((false, 0), st)

/-- Embedding of `CUSUMDetector.process_spatial_data` over a 2-D array modelled as a list
of rows of `Option ℚ` pixels (`none` = NaN).  With no mask supplied the
analysis mask is `~np.isnan(spatial_array)`; a supplied mask must have the
same shape or the call fails with `ValueError` leaving the state untouched. -/
def processSpatialDataCUSUM (cfg : CUSUMConfig) (st : CUSUMState)
    (rows : List (List (Option ℚ))) (baseline_mean baseline_std : Option ℚ)
    (mask : Option (List (List Bool))) : Except String CUSUMSpatialResult × CUSUMState :=
  let maskRows : Except String (List (List Bool)) :=
    match mask with
    | none => .ok (rows.map (fun r => r.map (fun px => px.isSome)))
    | some m =>
      if m.length = rows.length ∧ (m.zip rows).all (fun p => p.1.length = p.2.length)
      then .ok m else .error "mask must have same shape as spatial_array"
  match maskRows with
  | .error e => (.error e, st)
  | .ok m =>
    let step := fun (acc : CUSUMSpatialResult × CUSUMState)
        (rowPair : List (Option ℚ) × List Bool) =>
      let rowStep := fun (racc : (List Bool × List ℚ) × CUSUMState)
          (cell : Option ℚ × Bool) =>
        let pr := spatialPixelCUSUM cfg racc.2 cell.1 cell.2 baseline_mean baseline_std
        ((racc.1.1 ++ [pr.1.1], racc.1.2 ++ [pr.1.2]), pr.2)
      let rowRes := (rowPair.1.zip rowPair.2).foldl rowStep (([], []), acc.2)
      (⟨acc.1.change_map ++ [rowRes.1.1], acc.1.confidence_map ++ [rowRes.1.2]⟩, rowRes.2)
    let res := (rows.zip m).foldl step (⟨[], []⟩, st)
    (.ok res.1, res.2)

/-- Configuration built by `DeforestationCUSUMDetector.__init__`. -/
def deforestationConfig : CUSUMConfig :=
  { drift_k := 2/5, threshold_h := 7/2, reset_after_detection := true,
    min_observations := 5, bilateral := false }

/-- The result tuple of `DeforestationCUSUMDetector.detect_deforestation`
(the metadata dictionary is reflected by the first three fields plus the
underlying CUSUM outcome, which the proofs inspect directly). -/
structure DeforestationOutcome where
  deforestation_detected : Bool
  severity_score : ℚ
  severity_level : String
  deriving Repr, DecidableEq

/-- Embedding of `DeforestationCUSUMDetector.detect_deforestation` of `cusum.py` lines
495-579: negates the NDVI observation and baseline, runs the underlying
CUSUM, requires an "increase" alarm together with an actual NDVI drop, bands
severity by the drop magnitude, and boosts the score by corroborating
indices (`additional` maps an index name to `(current, baseline_mean)`). -/
def detectDeforestation (st : CUSUMState)
    (ndvi_current ndvi_baseline_mean ndvi_baseline_std : Option ℚ)
    (additional : List (String × ℚ × ℚ)) : DeforestationOutcome × CUSUMState :=
  let (r, st2) := detectChangeCUSUM deforestationConfig st
      (ndvi_current.map Neg.neg) (ndvi_baseline_mean.map Neg.neg) ndvi_baseline_std
  let magnitude := ndvi_baseline_mean.getD 0 - ndvi_current.getD 0
  let detected := r.change_detected && r.change_type = "increase" && decide (0 < magnitude)
  let (level, score) : String × ℚ :=
    if detected then
      if magnitude < 1/10 then ("low", r.confidence * (2/5))
      else if magnitude < 2/10 then ("moderate", r.confidence * (3/5))
      else if magnitude < 3/10 then ("high", r.confidence * (4/5))
      else ("severe", r.confidence)
    else ("none", 0)
  let confirmations := (additional.filter (fun p => p.2.1 < p.2.2 - 1/20)).length
  let total := additional.length
  let score :=
    if 0 < total then score * (7/10 + 3/10 * (confirmations / total : ℚ)) else score
  (⟨detected, score, level⟩, st2)

/-! ## EWMA detector (`app/algorithms/ewma.py`) -/

/-- Embedding of `EWMAConfig` from `ewma.py` (defaults `lambda_param=0.3`,
`threshold_multiplier=3.0`, `min_observations=10`, `max_history=1000`). -/
structure EWMAConfig where
  lambda_param : ℚ := 3/10
  threshold_multiplier : ℚ := 3
  min_observations : ℕ := 10
  max_history : ℕ := 1000
  deriving Repr, DecidableEq

/-- The metadata dictionary returned by `EWMADetector.detect_change`:
`{"error": msg}` on the guard branches, otherwise the record of lines
121-129 of `ewma.py`. -/
inductive EWMAMeta where
  | err (msg : String)
  | ok (ewma_value deviation control_limit baseline_mean baseline_std : ℚ)
      (observation_count : ℕ)
  deriving Repr, DecidableEq

/-- Mutable state of an `EWMADetector` as established by `reset()`. -/
structure EWMAState where
  ewma_history : List ℚ := []
  observation_count : ℕ := 0
  change_points : List ℕ := []
  deriving Repr, DecidableEq

/-- Embedding of `EWMADetector.reset`. -/
def EWMAState.reset : EWMAState := {}

/-- The tuple returned by `EWMADetector.detect_change`. -/
structure EWMAOutcome where
  change_detected : Bool
  confidence : ℚ
  metadata : EWMAMeta
  deriving Repr, DecidableEq

/-- Embedding of `EWMADetector.detect_change` of `ewma.py`.  The guard clauses mirror
lines 86-90; the EWMA update, ring-buffer history, control limit and
change-point recording mirror lines 92-136.  `np.sqrt` is irrational, so it
is supplied as the function parameter `sqrtq`; the control limit is
`threshold_multiplier * baseline_std * sqrtq (λ / (2 - λ))` and every
theorem below holds for every choice of `sqrtq`. -/
def detectChangeEWMA (sqrtq : ℚ → ℚ) (cfg : EWMAConfig) (st : EWMAState)
    (observation baseline_mean baseline_std : Option ℚ) :
    EWMAOutcome × EWMAState :=
  match observation, baseline_mean, baseline_std with
  | some obs, some mu, some sigma =>
    if sigma ≤ 0 then
      (⟨false, 0, .err "Invalid baseline standard deviation"⟩, st)
    else
      let ewma := match st.ewma_history.getLast? with
        | none => mu
        | some prev => cfg.lambda_param * obs + (1 - cfg.lambda_param) * prev
      let hist :=
        (if cfg.max_history ≤ st.ewma_history.length
         then st.ewma_history.drop 1 else st.ewma_history) ++ [ewma]
      let count := st.observation_count + 1
      let lambdaFactor := sqrtq (cfg.lambda_param / (2 - cfg.lambda_param))
      let controlLimit := cfg.threshold_multiplier * sigma * lambdaFactor
      let deviation := |ewma - mu|
      let changeDetected : Bool := decide (controlLimit < deviation)
      let confidence : ℚ :=
        if 0 < controlLimit then min (deviation / controlLimit) 2 / 2 else 0
      let meta := EWMAMeta.ok ewma deviation controlLimit mu sigma count
      let changePoints :=
        if changeDetected ∧ count ∉ st.change_points
        then st.change_points ++ [count] else st.change_points
      (⟨changeDetected, confidence, meta⟩,
       { ewma_history := hist, observation_count := count, change_points := changePoints })
  | _, _, _ => (⟨false, 0, .err "NaN values in input"⟩, st)

/-! ## Fusion configuration (`app/core/fusion_config.py`) -/

/-- Embedding of `FusionConfig.BASE_THRESHOLDS` (percent). -/
def baseThresholds : List (String × ℚ) :=
  [("ndvi", 15), ("evi", 20), ("ndwi", 20), ("mndwi", 25), ("ndbi", 15),
   ("bsi", 20), ("nbri", 25), ("turbidity_index", 30), ("algae_index", 25),
   ("thermal_proxy", 15), ("savi", 20), ("bai", 20)]

/-- Embedding of `FusionConfig.get_threshold` for a region whose adjustment multipliers are
given by `adj` (every region's `REGION_ADJUSTMENTS` entry is a sparse map
read with `adjustments.get(index, 1.0)`, so it is modelled as a total
function): the regional threshold is `base * adj`, and unknown index names
fall back to `20.0`. -/
def regionalThreshold (adj : String → ℚ) (name : String) : ℚ :=
  match baseThresholds.lookup name with
  | some base => base * adj name
  | none => 20

/-- The adjustment function of `Region.DEFAULT`: every multiplier is 1. -/
def defaultAdj : String → ℚ := fun _ => 1

/-! ## Fusion engine (`app/core/fusion_engine.py`) -/

/-- Embedding of `ChangeCategory` of `fusion_engine.py`, in Python definition order. -/
inductive ChangeCategory where
  | illegal_construction | illegal_mining | deforestation | water_pollution
  | coastal_erosion | algal_bloom | agricultural_expansion | seasonal_agriculture
  | urban_heat_island | wildfire_damage | normal_variation | unknown
  deriving Repr, DecidableEq

/-- Iteration order of `ChangeCategory` (Python `for cat in ChangeCategory`
yields definition order, which fixes which category `max` keeps on ties). -/
def categoryOrder : List ChangeCategory :=
  [.illegal_construction, .illegal_mining, .deforestation, .water_pollution,
   .coastal_erosion, .algal_bloom, .agricultural_expansion, .seasonal_agriculture,
   .urban_heat_island, .wildfire_damage, .normal_variation, .unknown]

/-- Embedding of `IndexChange` dataclass of `fusion_engine.py`. -/
structure IndexChange where
  name : String
  current_value : ℚ
  previous_value : ℚ
  change_percent : ℚ
  absolute_change : ℚ
  is_significant : Bool
  deriving Repr, DecidableEq

/-- The 12 index names over which `MultiSensorFusion.__init__` builds
`self.thresholds` from the config. -/
def fusionIndexNames : List String :=
  ["ndvi", "evi", "ndwi", "mndwi", "ndbi", "bsi", "nbri", "turbidity_index",
   "algae_index", "thermal_proxy", "savi", "bai"]

/-- Embedding of `self.thresholds.get(index_name, 0.20)` inside
`MultiSensorFusion._calculate_index_changes`: for the 12 configured indices
the regional threshold divided by 100, otherwise the literal default `0.20`. -/
def fusionThreshold (adj : String → ℚ) (name : String) : ℚ :=
  if fusionIndexNames.contains name then regionalThreshold adj name / 100 else 1/5

/-- The body of the loop of `MultiSensorFusion._calculate_index_changes`
(lines 191-214 of `fusion_engine.py`) for one index present in both maps. -/
def mkIndexChange (adj : String → ℚ) (name : String) (curr prev : ℚ) : IndexChange :=
  let absChange := curr - prev
  let pctChange : ℚ :=
    if |prev| < 1/1000 then (if |absChange| < 1/1000 then 0 else 100)
    else absChange / |prev| * 100
  let threshold := fusionThreshold adj name
  { name := name, current_value := curr, previous_value := prev,
    change_percent := pctChange, absolute_change := absChange,
    is_significant := decide (threshold * 100 < |pctChange|) }

/-- Embedding of `MultiSensorFusion._calculate_index_changes`: iterate over the current
map, skip indices absent from the previous map, and build an `IndexChange`
for each shared index. -/
def calculateIndexChanges (adj : String → ℚ)
    (current previous : List (String × ℚ)) : List IndexChange :=
  current.filterMap fun p =>
    (previous.lookup p.1).map fun prev => mkIndexChange adj p.1 p.2 prev

/-- Dictionary access `change_dict[name]` built at line 231 of
`fusion_engine.py` (index names are unique, so the first match is the
dict entry). -/
def changeDict (changes : List IndexChange) (name : String) : Option IndexChange :=
  changes.find? (fun c => c.name = name)

/-- Test a rule premise of the form
`name in change_dict and pred(change_dict[name])`. -/
def hasChange (changes : List IndexChange) (name : String) (pred : IndexChange → Prop)
    [DecidablePred pred] : Bool :=
  match changeDict changes name with
  | some c => decide (pred c)
  | none => false

/-- The category score table built by rules 1-7 of
`MultiSensorFusion._apply_context_rules` (lines 234-300); categories no
rule assigns keep their initial score `0.0`. -/
def categoryScores (changes : List IndexChange) (seasonalLikelihood : ℚ) :
    ChangeCategory → ℚ := fun cat =>
  match cat with
  | .illegal_construction =>
    if hasChange changes "ndvi" (fun c => c.change_percent < -15) &&
       hasChange changes "ndbi" (fun c => 15 < c.change_percent) then
      (3/5) + (if hasChange changes "thermal_proxy" (fun c => 10 < c.change_percent) then 1/5 else 0)
            + (if hasChange changes "bsi" (fun c => 10 < c.change_percent) then 1/5 else 0)
    else 0
  | .illegal_mining =>
    if hasChange changes "ndvi" (fun c => c.change_percent < -30) &&
       hasChange changes "ndwi" (fun c => 20 < c.change_percent) then
      (7/10) + (if hasChange changes "bsi" (fun c => 15 < c.change_percent) then 1/5 else 0)
             + (if hasChange changes "nbri" (fun c => c.change_percent < -20) then 1/10 else 0)
    else 0
  | .deforestation =>
    if hasChange changes "ndvi" (fun c => c.change_percent < -40) then
      (1/2) + (if hasChange changes "evi" (fun c => c.change_percent < -30) then 3/10 else 0)
            + (if hasChange changes "nbri" (fun c => c.change_percent < -30) then 1/5 else 0)
    else 0
  | .seasonal_agriculture =>
    if hasChange changes "ndvi" (fun c => 20 < |c.change_percent|) &&
       decide (3/5 < seasonalLikelihood) then seasonalLikelihood else 0
  | .water_pollution =>
    if hasChange changes "turbidity_index" (fun c => 30 < c.change_percent) then
      (3/5) + (if hasChange changes "algae_index" (fun c => 25 < c.change_percent) then 1/5 else 0)
            + (if hasChange changes "mndwi" (fun c => 20 < |c.change_percent|) then 1/5 else 0)
    else 0
  | .algal_bloom =>
    if hasChange changes "algae_index" (fun c => 40 < c.change_percent) then
      (7/10) + (if hasChange changes "ndwi" (fun c => 3/10 < c.current_value) then 1/5 else 0)
             + (if hasChange changes "turbidity_index" (fun c => 20 < c.change_percent) then 1/10 else 0)
    else 0
  | .wildfire_damage =>
    if hasChange changes "nbri" (fun c => c.change_percent < -50) then
      (7/10) + (if hasChange changes "ndvi" (fun c => c.change_percent < -40) then 1/5 else 0)
             + (if hasChange changes "thermal_proxy" (fun c => 20 < c.change_percent) then 1/10 else 0)
    else 0
  | _ => 0

/-- Python `max(category_scores.items(), key=lambda x: x[1])`: iterate in
insertion order and keep the first item whose score is strictly larger
than the best so far. -/
def maxCategory (scores : ChangeCategory → ℚ) : ChangeCategory × ℚ :=
  (categoryOrder.drop 1).foldl
    (fun best c => if best.2 < scores c then (c, scores c) else best)
    (.illegal_construction, scores .illegal_construction)

/-- Embedding of `MultiSensorFusion._apply_context_rules`: returns
`(category, confidence, primary_indicators)` per lines 302-315. -/
def applyContextRules (changes : List IndexChange) (seasonalLikelihood : ℚ) :
    ChangeCategory × ℚ × List String :=
  let best := maxCategory (categoryScores changes seasonalLikelihood)
  if best.2 < 3/10 then
    if changes.any (·.is_significant) then
      (.unknown, 2/5, ((changes.filter (·.is_significant)).map (·.name)).take 3)
    else (.normal_variation, 4/5, [])
  else (best.1, best.2, ((changes.filter (·.is_significant)).map (·.name)).take 5)

/-- Embedding of `self.weights['construction']` of `MultiSensorFusion.__init__`. -/
def constructionWeights : List (String × ℚ) :=
  [("ndbi", 2/5), ("ndvi", 1/4), ("bai", 1/5), ("thermal_proxy", 1/10), ("bsi", 1/20)]

/-- Embedding of `self.weights['vegetation_loss']`. -/
def vegetationLossWeights : List (String × ℚ) :=
  [("ndvi", 7/20), ("evi", 1/4), ("savi", 1/5), ("nbri", 3/20), ("bsi", 1/20)]

/-- Embedding of `self.weights['water_change']`. -/
def waterChangeWeights : List (String × ℚ) :=
  [("ndwi", 7/20), ("mndwi", 3/10), ("turbidity_index", 1/5), ("ndvi", 1/10),
   ("algae_index", 1/20)]

/-- Embedding of `MultiSensorFusion._calculate_composite_risk` (lines 317-358): weighted
average of capped absolute percent changes under the category's weight
vector (equal weights over the present changes for other categories — an
empty comprehension when `changes` is empty, so no division occurs), then
the seasonal discount and the final cap at 1. -/
def calculateCompositeRisk (changes : List IndexChange) (category : ChangeCategory)
    (seasonalLikelihood : ℚ) : ℚ :=
  let weights : List (String × ℚ) :=
    if category = .illegal_construction then constructionWeights
    else if category = .illegal_mining ∨ category = .deforestation then vegetationLossWeights
    else if category = .water_pollution ∨ category = .algal_bloom then waterChangeWeights
    else changes.map (fun c => (c.name, 1 / (changes.length : ℚ)))
  let acc := changes.foldl
    (fun (acc : ℚ × ℚ) c =>
      match weights.lookup c.name with
      | some w => (acc.1 + min (|c.change_percent| / 100) 1 * w, acc.2 + w)
      | none => acc)
    (0, 0)
  let risk := if 0 < acc.2 then acc.1 / acc.2 else acc.1
  let risk :=
    if category = .seasonal_agriculture then risk * (1 - seasonalLikelihood * (7/10))
    else risk * (1 - seasonalLikelihood * (3/10))
  min risk 1

/-- Embedding of `MultiSensorFusion._detect_seasonal_pattern` (lines 360-398).  The
NDVI coefficient of variation divides `np.std` — an irrational square
root — by the mean, so `np.std` is supplied as the function parameter
`stdq`; every theorem below holds for every choice of `stdq`. -/
def detectSeasonalPattern (stdq : List ℚ → ℚ) (changes : List IndexChange)
    (historical : List (List (String × ℚ))) : ℚ :=
  if historical.length < 4 then 0
  else match changeDict changes "ndvi" with
    | none => 0
    | some _ =>
      let histNdvi := historical.filterMap (fun h => h.lookup "ndvi")
      if histNdvi.length < 4 then 0
      else
        let meanNdvi := histNdvi.sum / (histNdvi.length : ℚ)
        if meanNdvi = 0 then 0
        else min (stdq histNdvi / |meanNdvi| / (1/2)) 1

/-- Embedding of `MultiSensorFusion._determine_risk_level` (lines 400-413). -/
def determineRiskLevel (score confidence : ℚ) : String :=
  let adjusted := score * confidence
  if 3/4 ≤ adjusted then "critical"
  else if 1/2 ≤ adjusted then "high"
  else if 1/4 ≤ adjusted then "medium"
  else "low"

/-- Embedding of `MultiSensorFusion._get_supporting_evidence` (lines 415-431): one
formatted string per significant change, capped at 5.  Each Python string
is the index name followed by its numbers; the embedding records the name
of the index each string describes. -/
def getSupportingEvidence (changes : List IndexChange) : List String :=
  ((changes.filter (·.is_significant)).map (·.name)).take 5

/-- Embedding of `FusionResult` of `fusion_engine.py` restricted to the fields the
analysed properties mention (the canned `recommendation` text and the
`details` echo of the change list are omitted). -/
structure FusionResult where
  composite_risk_score : ℚ
  risk_level : String
  category : ChangeCategory
  confidence : ℚ
  primary_indicators : List String
  supporting_evidence : List String
  seasonal_likelihood : ℚ
  deriving Repr, DecidableEq

/-- Embedding of `MultiSensorFusion.analyze` (lines 112-177): change computation,
seasonal-likelihood estimation (skipped when `historical_indices` is
`None` or empty — Python truthiness), context rules, composite risk, risk
level and supporting evidence.  `adj` is the regional threshold adjustment
(`defaultAdj` for the default `FusionConfig`) and `stdq` models `np.std`. -/
def analyze (adj : String → ℚ) (stdq : List ℚ → ℚ)
    (current previous : List (String × ℚ))
    (historical : Option (List (List (String × ℚ)))) : FusionResult :=
  let changes := calculateIndexChanges adj current previous
  let seasonal : ℚ :=
    match historical with
    | none => 0
    | some h => if h.isEmpty then 0 else detectSeasonalPattern stdq changes h
  let ccp := applyContextRules changes seasonal
  let risk := calculateCompositeRisk changes ccp.1 seasonal
  let level := determineRiskLevel risk ccp.2.1
  { composite_risk_score := risk, risk_level := level, category := ccp.1,
    confidence := ccp.2.1, primary_indicators := ccp.2.2,
    supporting_evidence := getSupportingEvidence changes,
    seasonal_likelihood := seasonal }

/-! ## Spectral analyzer (`app/core/spectral_analyzer.py`)

Every index formula is a pointwise map over aligned band arrays, so the
embedding works per pixel: an image is either a 2-D (grayscale) pixel or a
3-D pixel, i.e. the list of its per-band reflectances. -/

/-- Embedding of `self.epsilon = 1e-8` of `SpectralAnalyzer.__init__`. -/
def specEpsilon : ℚ := 1/100000000

/-- Embedding of `np.clip(x, -1.5, 1.5)` applied to every index at the end of
`SpectralAnalyzer._calculate_all_indices`. -/
def clipIndex (v : ℚ) : ℚ := min (max v (-(3/2))) (3/2)

/-- One pixel of an image accepted by `SpectralAnalyzer.extract_all_features`:
a 2-D image contributes a single grayscale value, a 3-D image the list of
its band values (the image's band count is the list's length). -/
inductive SpecImage where
  | gray (v : ℚ)
  | multi (bands : List ℚ)
  deriving Repr, DecidableEq

/-- Embedding of `SpectralAnalyzer._extract_bands` (lines 33-71): 2-D images yield
`{'grayscale': ...}`; 3-D images with fewer than 4 bands fail with
`ValueError`; otherwise blue/green/red/nir are always extracted and
red-edge/SWIR bands are added by band-count thresholds. -/
def extractBands : SpecImage → Except String (List (String × ℚ))
  | .gray v => .ok [("grayscale", v)]
  | .multi bands =>
    if bands.length < 4 then
      .error "Image must have at least 4 bands for spectral analysis"
    else
      .ok ([("blue", bands.getD 0 0), ("green", bands.getD 1 0),
            ("red", bands.getD 2 0), ("nir", bands.getD 3 0)]
        ++ (if 6 ≤ bands.length then
              [("red_edge_1", bands.getD 4 0), ("red_edge_2", bands.getD 5 0)] else [])
        ++ (if 8 ≤ bands.length then
              [("red_edge_3", bands.getD 6 0), ("swir_1", bands.getD 7 0)] else [])
        ++ (if 9 ≤ bands.length then [("swir_2", bands.getD 8 0)] else []))

/-- Embedding of `SpectralAnalyzer._calculate_all_indices` (lines 73-142), per pixel:
each index is computed when its bands are present, in source order, and
every value is clipped to `[-1.5, 1.5]` at the end.  (Lean's total `ℚ`
division returns 0 where the float denominator `x + ε` would be exactly
zero; the clip keeps either convention inside `[-1.5, 1.5]`.) -/
def calculateAllIndices (bands : List (String × ℚ)) : List (String × ℚ) :=
  let look := fun n => bands.lookup n
  let raw : List (String × ℚ) :=
    (match look "nir", look "red" with
     | some nir, some red => [("ndvi", (nir - red) / (nir + red + specEpsilon))]
     | _, _ => [])
    ++ (match look "nir", look "red", look "blue" with
     | some nir, some red, some blue =>
       [("evi", (5/2) * ((nir - red) / (nir + 6*red - (15/2)*blue + 1 + specEpsilon)))]
     | _, _, _ => [])
    ++ (match look "green", look "nir" with
     | some green, some nir => [("ndwi", (green - nir) / (green + nir + specEpsilon))]
     | _, _ => [])
    ++ (match look "green", look "swir_1" with
     | some green, some swir1 => [("mndwi", (green - swir1) / (green + swir1 + specEpsilon))]
     | _, _ => [])
    ++ (match look "swir_1", look "red", look "nir", look "blue" with
     | some swir1, some red, some nir, some blue =>
       [("bsi", ((swir1 + red) - (nir + blue)) / ((swir1 + red) + (nir + blue) + specEpsilon))]
     | _, _, _, _ => [])
    ++ (match look "swir_1", look "nir" with
     | some swir1, some nir => [("ndbi", (swir1 - nir) / (swir1 + nir + specEpsilon))]
     | _, _ => [])
    ++ (match look "red", look "nir" with
     | some red, some nir =>
       [("bai", 1 / ((1/10 - red)^2 + (3/50 - nir)^2 + specEpsilon))]
     | _, _ => [])
    ++ (match look "nir", look "red" with
     | some nir, some red =>
       [("savi", ((nir - red) / (nir + red + 1/2 + specEpsilon)) * (1 + 1/2))]
     | _, _ => [])
    ++ (match look "nir", look "swir_2" with
     | some nir, some swir2 => [("nbri", (nir - swir2) / (nir + swir2 + specEpsilon))]
     | _, _ => [])
    ++ (match look "swir_1" with
     | some swir1 => [("thermal_proxy", swir1)]
     | none => [])
    ++ (match look "red_edge_1", look "red" with
     | some re1, some red => [("algae_index", re1 / (red + specEpsilon))]
     | _, _ => [])
    ++ (match look "red", look "nir" with
     | some red, some nir => [("turbidity_index", red / (nir + specEpsilon))]
     | _, _ => [])
  raw.map (fun p => (p.1, clipIndex p.2))

/-- The `indices` component of `SpectralAnalyzer.extract_all_features`. -/
def extractAllFeatures (img : SpecImage) : Except String (List (String × ℚ)) :=
  (extractBands img).map calculateAllIndices

/-- The bands each spectral index formula requires, read off the guards of
`SpectralAnalyzer._calculate_all_indices`. -/
def requiredBands : List (String × List String) :=
  [("ndvi", ["nir", "red"]), ("evi", ["nir", "red", "blue"]),
   ("ndwi", ["green", "nir"]), ("mndwi", ["green", "swir_1"]),
   ("bsi", ["swir_1", "red", "nir", "blue"]), ("ndbi", ["swir_1", "nir"]),
   ("bai", ["red", "nir"]), ("savi", ["nir", "red"]),
   ("nbri", ["nir", "swir_2"]), ("thermal_proxy", ["swir_1"]),
   ("algae_index", ["red_edge_1", "red"]), ("turbidity_index", ["red", "nir"])]

/-! ## Temporal analyzer (`app/algorithms/temporal_analyzer.py`) -/

/-- Embedding of `TimeSeriesPoint` of `temporal_analyzer.py`; dates are modelled by
their day number (the source only compares dates and takes day
differences). -/
structure TimeSeriesPoint where
  date : ℤ
  value : ℚ
  quality_score : ℚ := 1
  deriving Repr, DecidableEq

/-- One record of the `time_series_data` argument of
`TemporalIndexAnalyzer.analyze_temporal_trends`, already projected to the
requested index: `date` is `none` when the record carries no recognised
date key, and `value` is `none` when none of the recognised keys
(`{index}_mean`, the index name itself, `indices[index]`) holds a
non-NaN number. -/
structure TemporalRecord where
  date : Option ℤ
  value : Option ℚ
  quality_score : ℚ := 1
  deriving Repr, DecidableEq

/-- Embedding of `TemporalIndexAnalyzer._extract_time_series`: keep exactly the records
with a date and a non-NaN value. -/
def extractTimeSeries (data : List TemporalRecord) : List TimeSeriesPoint :=
  data.filterMap fun r =>
    match r.date, r.value with
    | some d, some v => some ⟨d, v, r.quality_score⟩
    | _, _ => none

/-- Embedding of `scipy.stats.linregress` restricted to the fields the analyzer uses:
slope and `r_value ** 2`, by the standard least-squares formulas.  (The
degenerate all-identical-`x` input, on which the library's behaviour is
version-dependent, is completed with `ℚ`'s total division, i.e. slope 0;
the p-value, which needs the transcendental t-distribution CDF, is not
modelled — no analysed property mentions it.) -/
def linregressSlopeR2 (x y : List ℚ) : ℚ × ℚ :=
  let n : ℚ := x.length
  let mx := x.sum / n
  let my := y.sum / n
  let ssxm := (x.map (fun v => (v - mx)^2)).sum
  let ssym := (y.map (fun v => (v - my)^2)).sum
  let ssxym := ((x.zip y).map (fun p => (p.1 - mx) * (p.2 - my))).sum
  (ssxym / ssxm, ssxym^2 / (ssxm * ssym))

/-- Embedding of `TrendAnalysis` restricted to the fields computable over `ℚ`
(`p_value` and the p-value-dependent `confidence` are omitted, see
`linregressSlopeR2`). -/
structure TrendAnalysis where
  direction : String
  slope : ℚ
  r_squared : ℚ
  deriving Repr, DecidableEq

/-- Embedding of `TemporalIndexAnalyzer._calculate_trend` (lines 166-199): regress value
against days since the first point and classify the direction with the
`1e-4` slope cut-off. -/
def calculateTrend (ts : List TimeSeriesPoint) : TrendAnalysis :=
  let firstDate := (ts.head?.map (·.date)).getD 0
  let x := ts.map (fun p => ((p.date - firstDate : ℤ) : ℚ))
  let y := ts.map (·.value)
  let sr := linregressSlopeR2 x y
  let direction :=
    if |sr.1| < 1/10000 then "stable"
    else if 0 < sr.1 then "increasing" else "decreasing"
  ⟨direction, sr.1, sr.2⟩

/-- Embedding of `VelocityAnalysis` of `temporal_analyzer.py`. -/
structure VelocityAnalysis where
  average_velocity : ℚ
  current_velocity : ℚ
  acceleration : ℚ
  is_accelerating : Bool
  days_to_critical : Option ℚ
  severity : String
  deriving Repr, DecidableEq

/-- Embedding of `TemporalIndexAnalyzer._classify_severity` (lines 264-284). -/
def classifySeverity (velocity acceleration : ℚ) : String :=
  let absVel := |velocity|
  if absVel < 1/1000 ∧ |acceleration| < 1/10000 then "stable"
  else if absVel < 1/500 ∧ acceleration ≤ 0 then "slow_improvement"
  else if absVel < 1/500 ∧ 0 < acceleration then "slow_degradation"
  else if 1/500 ≤ absVel ∧ absVel < 1/200 ∧ acceleration ≤ 0 then "moderate_improvement"
  else if 1/500 ≤ absVel ∧ absVel < 1/200 ∧ 0 < acceleration then "moderate_degradation"
  else if 1/200 ≤ absVel ∧ velocity < 0 then "rapid_degradation"
  else if 1/200 ≤ absVel ∧ 0 < velocity then "rapid_improvement"
  else "moderate_change"

/-- Embedding of `TemporalIndexAnalyzer._calculate_velocity_acceleration` (lines
201-262): per-pair daily rates (zero-day pairs skipped), their first
differences, and the linear extrapolation to a critical threshold
(suppressed when negative). -/
def calculateVelocityAcceleration (ts : List TimeSeriesPoint)
    (critical : Option ℚ) : VelocityAnalysis :=
  let velocities := (ts.zip (ts.drop 1)).filterMap fun p =>
    let dt : ℤ := p.2.date - p.1.date
    if 0 < dt then some ((p.2.value - p.1.value) / (dt : ℚ)) else none
  match velocities with
  | [] => ⟨0, 0, 0, false, none, "stable"⟩
  | v₀ :: _ =>
    let accelerations := ((v₀ :: velocities.drop 1).zip (velocities.drop 1)).map
      (fun p => p.2 - p.1)
    let avgVelocity := velocities.sum / (velocities.length : ℚ)
    let currentVelocity := velocities.getLastD 0
    let avgAcceleration :=
      if accelerations.isEmpty then 0
      else accelerations.sum / (accelerations.length : ℚ)
    let daysToCritical : Option ℚ :=
      match critical with
      | none => none
      | some threshold =>
        if currentVelocity ≠ 0 then
          let remaining := threshold - ((ts.map (·.value)).getLastD 0)
          let d := remaining / currentVelocity
          if d < 0 then none else some d
        else none
    ⟨avgVelocity, currentVelocity, avgAcceleration,
     decide (1/10000 < avgAcceleration), daysToCritical,
     classifySeverity currentVelocity avgAcceleration⟩

/-- Embedding of `TemporalIndexAnalyzer._simple_forecast` (lines 380-402). -/
def simpleForecast (ts : List TimeSeriesPoint) (trend : TrendAnalysis) : ℚ :=
  match ts.reverse with
  | [] => 0
  | [p] => p.value
  | lastPoint :: secondLast :: _ =>
    let daysBetween : ℤ := lastPoint.date - secondLast.date
    let daysBetween : ℚ := if daysBetween = 0 then 30 else (daysBetween : ℚ)
    lastPoint.value + trend.slope * daysBetween

/-- Embedding of `TemporalResult` restricted to the `ℚ`-computable fields (the anomaly
list and seasonal-pattern record need `np.std`'s square root, and the
interpretation string is a deterministic rendering of the other fields;
no analysed property mentions them). -/
structure TemporalResult where
  index_name : String
  periods_analyzed : ℕ
  trend : TrendAnalysis
  velocity : VelocityAnalysis
  next_period_forecast : ℚ
  time_series : List TimeSeriesPoint
  deriving Repr, DecidableEq

/-- The error raised by `TemporalIndexAnalyzer.analyze_temporal_trends`
when fewer than 3 (usable) points are supplied — the spec's
insufficient-data error (the source raises Python's `ValueError` with a
"Need at least 3 data points" / "Insufficient data" message). -/
inductive TemporalError where
  | insufficientData
  deriving Repr, DecidableEq

/-- Embedding of `TemporalIndexAnalyzer.analyze_temporal_trends` (lines 67-125): fail
when fewer than 3 records are supplied, extract the usable points, fail
when fewer than 3 remain, sort chronologically (Python's stable
`list.sort`), and assemble the analyses. -/
def analyzeTemporalTrends (data : List TemporalRecord) (indexName : String)
    (critical : Option ℚ) : Except TemporalError TemporalResult :=
  if data.length < 3 then .error .insufficientData
  else
    let ts := extractTimeSeries data
    if ts.length < 3 then .error .insufficientData
    else
      let sorted := ts.mergeSort (fun a b => a.date ≤ b.date)
      let trend := calculateTrend sorted
      let velocity := calculateVelocityAcceleration sorted critical
      let forecast := simpleForecast sorted trend
      .ok ⟨indexName, sorted.length, trend, velocity, forecast, sorted⟩

/-- The fixed current-index map of the spec's fusion-determinism property:
`{'ndvi': 0.3, 'ndbi': 0.35}`. -/
def evalCurrent : List (String × ℚ) := [("ndvi", 3/10), ("ndbi", 35/100)]

/-- The fixed previous-index map of the same property:
`{'ndvi': 0.4, 'ndbi': 0.28}`. -/
def evalPrevious : List (String × ℚ) := [("ndvi", 2/5), ("ndbi", 28/100)]

/-- The `IndexChange` list the fusion engine computes for that fixed input
(NDVI −25%, NDBI +25%, both significant at the default 15% thresholds). -/
def evalChanges : List IndexChange :=
  [⟨"ndvi", 3/10, 2/5, -25, -(1/10), true⟩, ⟨"ndbi", 35/100, 28/100, 25, 7/100, true⟩]

/-- Non-negativity of the CUSUM cumulative sums (spec data-model invariant). -/
def CUSUMState.NonnegSums (st : CUSUMState) : Prop := 0 ≤ st.s_plus ∧ 0 ≤ st.s_minus

/-- The post-update alarm condition of `CUSUMDetector.detect_change`,
expressed on the pre-call state: the updated `S⁺` reaches `threshold_h`,
or (bilateral only) the updated `S⁻` does. -/
def cusumAlarm (cfg : CUSUMConfig) (st : CUSUMState) (o mu sigma : ℚ) : Prop :=
  cfg.threshold_h ≤ max 0 (st.s_plus + (o - mu) / sigma - cfg.drift_k) ∨
    (cfg.bilateral = true ∧
      cfg.threshold_h ≤ max 0 (st.s_minus - (o - mu) / sigma - cfg.drift_k))

/-- An invalid detector input: some argument is NaN, or the baseline
standard deviation is non-positive. -/
def InvalidDetectorInput (observation baseline_mean baseline_std : Option ℚ) : Prop :=
  observation = none ∨ baseline_mean = none ∨ baseline_std = none ∨
    ∃ s, baseline_std = some s ∧ s ≤ 0

/-! ## Theorems -/

/-- C4: an EWMA or CUSUM `detect_change` call whose observation, baseline
mean or baseline std is NaN, or whose baseline std is ≤ 0, returns
`change_detected = false` with confidence 0 and an error tag in the
metadata, and leaves the detector state exactly unchanged. -/
theorem detectChange_invalid_input_soft_failure
    (sqrtq : ℚ → ℚ) (ccfg : CUSUMConfig) (ecfg : EWMAConfig)
    (cst : CUSUMState) (est : EWMAState) (observation baseline_mean baseline_std : Option ℚ)
    (h : InvalidDetectorInput observation baseline_mean baseline_std) :
    (detectChangeCUSUM ccfg cst observation baseline_mean baseline_std).2 = cst ∧
    (detectChangeCUSUM ccfg cst observation baseline_mean baseline_std).1.change_detected = false ∧
    (detectChangeCUSUM ccfg cst observation baseline_mean baseline_std).1.confidence = 0 ∧
    (∃ m, (detectChangeCUSUM ccfg cst observation baseline_mean baseline_std).1.metadata = .err m) ∧
    (detectChangeEWMA sqrtq ecfg est observation baseline_mean baseline_std).2 = est ∧
    (detectChangeEWMA sqrtq ecfg est observation baseline_mean baseline_std).1.change_detected = false ∧
    (detectChangeEWMA sqrtq ecfg est observation baseline_mean baseline_std).1.confidence = 0 ∧
    (∃ m, (detectChangeEWMA sqrtq ecfg est observation baseline_mean baseline_std).1.metadata = .err m) := by
  cases observation <;> cases baseline_mean <;> cases baseline_std <;>
    simp [detectChangeCUSUM, detectChangeEWMA]
  case some.some.some o mu s =>
    rcases h with h | h | h | ⟨s2, hs2, hle⟩ <;> simp_all

/-- C4 witness: a concrete invalid call (baseline std 0). -/
theorem detectChange_invalid_input_soft_failure_witness :
    InvalidDetectorInput (some 1) (some 0) (some 0) ∧
    ((detectChangeCUSUM {} {} (some 1) (some 0) (some 0)).2 = {} ∧
     (detectChangeCUSUM {} {} (some 1) (some 0) (some 0)).1.change_detected = false ∧
     (detectChangeCUSUM {} {} (some 1) (some 0) (some 0)).1.confidence = 0 ∧
     (∃ m, (detectChangeCUSUM {} {} (some 1) (some 0) (some 0)).1.metadata = .err m) ∧
     (detectChangeEWMA (fun _ => 0) {} {} (some 1) (some 0) (some 0)).2 = {} ∧
     (detectChangeEWMA (fun _ => 0) {} {} (some 1) (some 0) (some 0)).1.change_detected = false ∧
     (detectChangeEWMA (fun _ => 0) {} {} (some 1) (some 0) (some 0)).1.confidence = 0 ∧
     (∃ m, (detectChangeEWMA (fun _ => 0) {} {} (some 1) (some 0) (some 0)).1.metadata = .err m)) :=
  ⟨Or.inr (Or.inr (Or.inr ⟨0, rfl, le_refl 0⟩)),
   detectChange_invalid_input_soft_failure (fun _ => 0) {} {} {} {}
     (some 1) (some 0) (some 0) (Or.inr (Or.inr (Or.inr ⟨0, rfl, le_refl 0⟩)))⟩

/-- C5: for a valid CUSUM `detect_change` call, the returned flag is exactly
the post-update alarm condition (no `min_observations` gating), a change
point is appended to the log exactly when the alarm holds and the
post-increment observation count has reached `min_observations`, and with
`reset_after_detection` both sums are exactly 0 immediately after any
recording call. -/
theorem detectChangeCUSUM_alarm_recording_reset
    (cfg : CUSUMConfig) (st : CUSUMState) (o mu sigma : ℚ) (hs : 0 < sigma)
    (out : CUSUMOutcome) (st2 : CUSUMState)
    (hcall : detectChangeCUSUM cfg st (some o) (some mu) (some sigma) = (out, st2)) :
    (out.change_detected = true ↔ cusumAlarm cfg st o mu sigma) ∧
    ((∃ cp, st2.change_points = st.change_points ++ [cp]) ↔
      (cusumAlarm cfg st o mu sigma ∧ cfg.min_observations ≤ st.observation_count + 1)) ∧
    (¬ (cusumAlarm cfg st o mu sigma ∧ cfg.min_observations ≤ st.observation_count + 1) →
      st2.change_points = st.change_points) ∧
    (cfg.reset_after_detection = true →
      (cusumAlarm cfg st o mu sigma ∧ cfg.min_observations ≤ st.observation_count + 1) →
      st2.s_plus = 0 ∧ st2.s_minus = 0) := by
  have hns : ¬ sigma ≤ 0 := not_le.mpr hs
  rw [detectChangeCUSUM.eq_def] at hcall
  dsimp only at hcall
  rw [if_neg hns] at hcall
  injection hcall with h1 h2
  have hcd : out.change_detected =
      (decide (cfg.threshold_h ≤ 0 ⊔ (st.s_plus + (o - mu) / sigma - cfg.drift_k)) ||
       (cfg.bilateral && decide (cfg.threshold_h ≤
         if cfg.bilateral = true then 0 ⊔ (st.s_minus - (o - mu) / sigma - cfg.drift_k)
         else st.s_minus))) := by rw [← h1]
  have halarm : out.change_detected = true ↔ cusumAlarm cfg st o mu sigma := by
    rw [hcd, cusumAlarm]
    cases hbl : cfg.bilateral <;> simp [hbl]
  have hcp := congrArg CUSUMState.change_points h2
  have hsp := congrArg CUSUMState.s_plus h2
  have hsm := congrArg CUSUMState.s_minus h2
  dsimp only at hcp hsp hsm
  rw [← hcd] at hcp hsp hsm
  by_cases hdet : out.change_detected = true <;>
  by_cases hmin : cfg.min_observations ≤ st.observation_count + 1
  · simp [hdet, decide_eq_true hmin] at hcp hsp hsm
    refine ⟨halarm, ?_, ?_, ?_⟩
    · exact ⟨fun _ => ⟨halarm.mp hdet, hmin⟩, fun _ => ⟨_, hcp.symm⟩⟩
    · intro hna
      exact absurd ⟨halarm.mp hdet, hmin⟩ hna
    · intro hrst _
      rw [hrst] at hsp hsm
      simp only [if_true] at hsp hsm
      exact ⟨hsp.symm, hsm.symm⟩
  · have hmb : decide (cfg.min_observations ≤ st.observation_count + 1) = false :=
      decide_eq_false hmin
    simp only [hmb, Bool.and_false, Bool.false_and, if_neg, Bool.false_eq_true,
      ite_false] at hcp hsp hsm
    refine ⟨halarm, ?_, ?_, ?_⟩
    · constructor
      · intro hex
        obtain ⟨cp, hc⟩ := hex
        rw [← hcp] at hc
        have hlen := congrArg List.length hc
        simp at hlen
      · intro hconj
        exact absurd hconj.2 hmin
    · intro _
      exact hcp.symm
    · intro _ hc
      exact absurd hc.2 hmin
  all_goals {
    have hdb : out.change_detected = false := by
      cases hh : out.change_detected
      · rfl
      · exact absurd hh hdet
    rw [hdb] at hcp hsp hsm
    simp only [Bool.false_and, Bool.false_eq_true, ite_false] at hcp hsp hsm
    refine ⟨halarm, ?_, ?_, ?_⟩
    · constructor
      · intro hex
        obtain ⟨cp, hc⟩ := hex
        rw [← hcp] at hc
        have hlen := congrArg List.length hc
        simp at hlen
      · intro hconj
        exact absurd (halarm.mpr hconj.1) hdet
    · intro _
      exact hcp.symm
    · intro _ hc
      exact absurd (halarm.mpr hc.1) hdet }

/-- C5 witness: a concrete valid call (`z = 10`, default config, fresh state)
whose alarm fires on the first observation; `min_observations = 5` is not yet
reached, so nothing is recorded. -/
theorem detectChangeCUSUM_alarm_recording_reset_witness :
    (0 : ℚ) < 1 ∧
    ((detectChangeCUSUM {} {} (some 10) (some 0) (some 1)).1.change_detected = true ↔
      cusumAlarm {} {} 10 0 1) :=
  ⟨by norm_num,
   (detectChangeCUSUM_alarm_recording_reset {} {} 10 0 1 (by norm_num)
      (detectChangeCUSUM {} {} (some 10) (some 0) (some 1)).1
      (detectChangeCUSUM {} {} (some 10) (some 0) (some 1)).2 rfl).1⟩

/-- C3: a valid `detect_deforestation` call with no additional indices is
the underlying CUSUM run on `-ndvi_current` against `-ndvi_baseline_mean`
(same final state); deforestation is flagged exactly when that CUSUM fires
with change type "increase" and the NDVI actually dropped; and the severity
score is the CUSUM confidence times 0.4 / 0.6 / 0.8 / 1.0 (levels
low / moderate / high / severe) as the drop is < 0.1 / < 0.2 / < 0.3 / ≥ 0.3. -/
theorem detectDeforestation_signflip_and_severity
    (st : CUSUMState) (o mu sigma : ℚ) (_hs : 0 < sigma)
    (res : DeforestationOutcome) (st2 : CUSUMState) (B : CUSUMOutcome) (stB : CUSUMState)
    (hdefo : detectDeforestation st (some o) (some mu) (some sigma) [] = (res, st2))
    (hbase : detectChangeCUSUM deforestationConfig st (some (-o)) (some (-mu)) (some sigma) =
      (B, stB)) :
    st2 = stB ∧
    (res.deforestation_detected = true ↔
      (B.change_detected = true ∧ B.change_type = "increase" ∧ 0 < mu - o)) ∧
    (res.deforestation_detected = true →
      ((mu - o < 1/10 → res.severity_score = B.confidence * (2/5) ∧ res.severity_level = "low") ∧
       (1/10 ≤ mu - o ∧ mu - o < 2/10 →
         res.severity_score = B.confidence * (3/5) ∧ res.severity_level = "moderate") ∧
       (2/10 ≤ mu - o ∧ mu - o < 3/10 →
         res.severity_score = B.confidence * (4/5) ∧ res.severity_level = "high") ∧
       (3/10 ≤ mu - o → res.severity_score = B.confidence ∧ res.severity_level = "severe"))) := by
  rw [detectDeforestation.eq_def] at hdefo
  simp only [Option.map_some', Option.getD_some, hbase, List.filter_nil, List.length_nil,
    lt_irrefl, if_false, Nat.cast_zero] at hdefo
  injection hdefo with h1 h2
  subst h1 h2
  refine ⟨rfl, ?_, ?_⟩
  · dsimp only
    simp only [Bool.and_eq_true, decide_eq_true_eq, and_assoc]
  · intro hdet
    dsimp only at hdet ⊢
    simp only [Bool.and_eq_true, decide_eq_true_eq] at hdet
    obtain ⟨⟨hcd, hct⟩, hpos⟩ := hdet
    have hom : o < mu := sub_pos.mp hpos
    refine ⟨?_, ?_, ?_, ?_⟩
    · intro hb
      rw [one_div] at hb
      simp [hcd, hct, hom, hb]
    · rintro ⟨hge, hlt⟩
      have hn1 : ¬ (mu - o < 10⁻¹) := not_lt.mpr ((one_div (10:ℚ)) ▸ hge)
      simp [hcd, hct, hom, hn1, hlt]
    · rintro ⟨hge, hlt⟩
      have hn1 : ¬ (mu - o < 10⁻¹) := not_lt.mpr (le_trans (by norm_num) hge)
      have hn2 : ¬ (mu - o < 2/10) := not_lt.mpr hge
      simp [hcd, hct, hom, hn1, hn2, hlt]
    · intro hge
      have hn1 : ¬ (mu - o < 10⁻¹) := not_lt.mpr (le_trans (by norm_num) hge)
      have hn2 : ¬ (mu - o < 2/10) := not_lt.mpr (le_trans (by norm_num) hge)
      have hn3 : ¬ (mu - o < 3/10) := not_lt.mpr hge
      simp [hcd, hct, hom, hn1, hn2, hn3]

/-- C3 witness: a concrete valid call (`S⁺ = 3.3` after 9 observations,
NDVI 0.6 → 0.25, σ = 0.1) on which the deforestation detector fires. -/
theorem detectDeforestation_signflip_and_severity_witness :
    (0 : ℚ) < 1/10 ∧
    ((detectDeforestation ⟨33/10, 0, 9, [], []⟩ (some (1/4)) (some (3/5)) (some (1/10))
        []).1.deforestation_detected = true ↔
      ((detectChangeCUSUM deforestationConfig ⟨33/10, 0, 9, [], []⟩ (some (-(1/4)))
          (some (-(3/5))) (some (1/10))).1.change_detected = true ∧
       (detectChangeCUSUM deforestationConfig ⟨33/10, 0, 9, [], []⟩ (some (-(1/4)))
          (some (-(3/5))) (some (1/10))).1.change_type = "increase" ∧
       (0 : ℚ) < 3/5 - 1/4)) :=
  ⟨by norm_num,
   (detectDeforestation_signflip_and_severity ⟨33/10, 0, 9, [], []⟩ (1/4) (3/5) (1/10)
      (by norm_num) _ _ _ _ rfl rfl).2.1⟩



/-- Fold preservation helper: a property preserved by each step of a left
fold is preserved by the whole fold. -/
theorem foldl_preserves {α β : Type} (f : β → α → β) (P : β → Prop)
    (hf : ∀ b a, P b → P (f b a)) : ∀ (l : List α) (b : β), P b → P (l.foldl f b) := by
  intro l
  induction l with
  | nil => intro b hb; exact hb
  | cons a t ih => intro b hb; exact ih (f b a) (hf b a hb)

/-- The freshly reset CUSUM state has non-negative sums. -/
theorem nonneg_reset : CUSUMState.reset.NonnegSums :=
  ⟨le_refl 0, le_refl 0⟩

/-- Embedding of `detect_change` preserves non-negativity of `S⁺` and `S⁻`. -/
theorem nonneg_detectChangeCUSUM (cfg : CUSUMConfig) (st : CUSUMState)
    (o mu s : Option ℚ) (h : st.NonnegSums) :
    (detectChangeCUSUM cfg st o mu s).2.NonnegSums := by
  cases o <;> cases mu <;> cases s <;> try exact h
  case some.some.some a b c =>
    unfold detectChangeCUSUM CUSUMState.NonnegSums
    split_ifs <;>
      first
        | exact h
        | (constructor <;> dsimp only <;>
            (try split_ifs) <;>
            first
              | exact le_refl 0
              | exact le_max_left 0 _
              | exact h.2)

/-- One spatial pixel step preserves non-negativity. -/
theorem nonneg_spatialPixelCUSUM (cfg : CUSUMConfig) (st : CUSUMState)
    (px : Option ℚ) (mb : Bool) (bm bs : Option ℚ) (h : st.NonnegSums) :
    (spatialPixelCUSUM cfg st px mb bm bs).2.NonnegSums := by
  unfold spatialPixelCUSUM
  split_ifs with hmb
  · exact nonneg_detectChangeCUSUM cfg CUSUMState.reset px bm bs nonneg_reset
  · exact h

set_option maxHeartbeats 1600000 in
/-- C9: `S⁺ ≥ 0 ∧ S⁻ ≥ 0` holds after construction/reset and is preserved
by every `detect_change`, `process_time_series` and `process_spatial_data`
call: the sums are never negative in any reachable detector state. -/
theorem cusum_sums_never_negative (cfg : CUSUMConfig) (st : CUSUMState)
    (o mu s : Option ℚ) (series : List (Option ℚ)) (rows : List (List (Option ℚ)))
    (mask : Option (List (List Bool))) (h : st.NonnegSums) :
    CUSUMState.reset.NonnegSums ∧
    (detectChangeCUSUM cfg st o mu s).2.NonnegSums ∧
    (processTimeSeriesCUSUM cfg st series o mu).2.NonnegSums ∧
    (processSpatialDataCUSUM cfg st rows o mu mask).2.NonnegSums := by
  refine ⟨nonneg_reset, nonneg_detectChangeCUSUM cfg st o mu s h, ?_, ?_⟩
  · unfold processTimeSeriesCUSUM
    exact foldl_preserves _ (fun acc : CUSUMSeriesResult × CUSUMState => acc.2.NonnegSums)
      (fun b a hb => nonneg_detectChangeCUSUM cfg b.2 a o mu hb) series _ nonneg_reset
  · unfold processSpatialDataCUSUM
    cases mask with
    | none =>
      dsimp only
      refine foldl_preserves _
        (fun acc : CUSUMSpatialResult × CUSUMState => acc.2.NonnegSums) ?_ _ _ h
      intro b a hb
      dsimp only
      refine foldl_preserves _
        (fun racc : (List Bool × List ℚ) × CUSUMState => racc.2.NonnegSums) ?_ _ _ hb
      intro rb ra hrb
      dsimp only
      exact nonneg_spatialPixelCUSUM cfg rb.2 ra.1 ra.2 o mu hrb
    | some m =>
      dsimp only
      split_ifs with hshape
      · dsimp only
        refine foldl_preserves _
          (fun acc : CUSUMSpatialResult × CUSUMState => acc.2.NonnegSums) ?_ _ _ h
        intro b a hb
        dsimp only
        refine foldl_preserves _
          (fun racc : (List Bool × List ℚ) × CUSUMState => racc.2.NonnegSums) ?_ _ _ hb
        intro rb ra hrb
        dsimp only
        exact nonneg_spatialPixelCUSUM cfg rb.2 ra.1 ra.2 o mu hrb
      · exact h

/-- C9 witness: a concrete preservation instance on the default
configuration and a one-row spatial sweep. -/
theorem cusum_sums_never_negative_witness :
    CUSUMState.reset.NonnegSums ∧
    (CUSUMState.reset.NonnegSums ∧
      (detectChangeCUSUM {} CUSUMState.reset (some 10) (some 0) (some 1)).2.NonnegSums ∧
      (processTimeSeriesCUSUM {} CUSUMState.reset [some 10, none] (some 10) (some 0)).2.NonnegSums ∧
      (processSpatialDataCUSUM {} CUSUMState.reset [[some 10, none]] (some 10) (some 0)
        none).2.NonnegSums) :=
  ⟨nonneg_reset,
   cusum_sums_never_negative {} CUSUMState.reset (some 10) (some 0) (some 1)
     [some 10, none] [[some 10, none]] none nonneg_reset⟩


/-! ### Evaluation of the fusion pipeline on the spec's fixed input -/

theorem eval_threshold_ndvi : fusionThreshold defaultAdj "ndvi" = 15/100 := by
  rw [fusionThreshold, regionalThreshold,
    show List.lookup "ndvi" baseThresholds = some 15 from rfl]
  norm_num [fusionIndexNames, defaultAdj]

theorem eval_threshold_ndbi : fusionThreshold defaultAdj "ndbi" = 15/100 := by
  rw [fusionThreshold, regionalThreshold,
    show List.lookup "ndbi" baseThresholds = some 15 from rfl]
  norm_num [fusionIndexNames, defaultAdj]

theorem eval_mk_ndvi :
    mkIndexChange defaultAdj "ndvi" (3/10) (2/5) = ⟨"ndvi", 3/10, 2/5, -25, -(1/10), true⟩ := by
  norm_num [mkIndexChange, eval_threshold_ndvi, abs_of_pos, abs_of_neg]

theorem eval_mk_ndbi :
    mkIndexChange defaultAdj "ndbi" (35/100) (28/100) =
      ⟨"ndbi", 35/100, 28/100, 25, 7/100, true⟩ := by
  norm_num [mkIndexChange, eval_threshold_ndbi, abs_of_pos, abs_of_neg]

theorem eval_changes :
    calculateIndexChanges defaultAdj evalCurrent evalPrevious = evalChanges := by
  simp only [calculateIndexChanges, evalCurrent, evalPrevious, List.filterMap_cons,
    List.filterMap_nil, show List.lookup "ndvi" [("ndvi", (2:ℚ)/5), ("ndbi", 28/100)] =
      some (2/5) from rfl,
    show List.lookup "ndbi" [("ndvi", (2:ℚ)/5), ("ndbi", 28/100)] = some (28/100) from rfl,
    Option.map_some']
  rw [eval_mk_ndvi, eval_mk_ndbi]
  rfl

theorem cd_ndvi : changeDict evalChanges "ndvi" =
    some ⟨"ndvi", 3/10, 2/5, -25, -(1/10), true⟩ := rfl

theorem cd_ndbi : changeDict evalChanges "ndbi" =
    some ⟨"ndbi", 35/100, 28/100, 25, 7/100, true⟩ := rfl

theorem cd_thermal : changeDict evalChanges "thermal_proxy" = none := rfl

theorem cd_bsi : changeDict evalChanges "bsi" = none := rfl

theorem cd_ndwi : changeDict evalChanges "ndwi" = none := rfl

theorem cd_nbri : changeDict evalChanges "nbri" = none := rfl

theorem cd_evi : changeDict evalChanges "evi" = none := rfl

theorem cd_turbidity : changeDict evalChanges "turbidity_index" = none := rfl

theorem cd_algae : changeDict evalChanges "algae_index" = none := rfl

theorem cd_mndwi : changeDict evalChanges "mndwi" = none := rfl

theorem sc_construction : categoryScores evalChanges 0 ChangeCategory.illegal_construction = 3/5 := by
  norm_num [categoryScores, hasChange, cd_ndvi, cd_ndbi, cd_thermal, cd_bsi, cd_ndwi,
    cd_nbri, cd_evi, cd_turbidity, cd_algae, cd_mndwi]

theorem sc_mining : categoryScores evalChanges 0 ChangeCategory.illegal_mining = 0 := by
  norm_num [categoryScores, hasChange, cd_ndvi, cd_ndbi, cd_thermal, cd_bsi, cd_ndwi,
    cd_nbri, cd_evi, cd_turbidity, cd_algae, cd_mndwi]

theorem sc_deforestation : categoryScores evalChanges 0 ChangeCategory.deforestation = 0 := by
  norm_num [categoryScores, hasChange, cd_ndvi, cd_ndbi, cd_thermal, cd_bsi, cd_ndwi,
    cd_nbri, cd_evi, cd_turbidity, cd_algae, cd_mndwi]

theorem sc_water_pollution : categoryScores evalChanges 0 ChangeCategory.water_pollution = 0 := by
  norm_num [categoryScores, hasChange, cd_ndvi, cd_ndbi, cd_thermal, cd_bsi, cd_ndwi,
    cd_nbri, cd_evi, cd_turbidity, cd_algae, cd_mndwi]

theorem sc_coastal : categoryScores evalChanges 0 ChangeCategory.coastal_erosion = 0 := by
  norm_num [categoryScores, hasChange, cd_ndvi, cd_ndbi, cd_thermal, cd_bsi, cd_ndwi,
    cd_nbri, cd_evi, cd_turbidity, cd_algae, cd_mndwi]

theorem sc_algal : categoryScores evalChanges 0 ChangeCategory.algal_bloom = 0 := by
  norm_num [categoryScores, hasChange, cd_ndvi, cd_ndbi, cd_thermal, cd_bsi, cd_ndwi,
    cd_nbri, cd_evi, cd_turbidity, cd_algae, cd_mndwi]

theorem sc_agri : categoryScores evalChanges 0 ChangeCategory.agricultural_expansion = 0 := by
  norm_num [categoryScores, hasChange, cd_ndvi, cd_ndbi, cd_thermal, cd_bsi, cd_ndwi,
    cd_nbri, cd_evi, cd_turbidity, cd_algae, cd_mndwi]

theorem sc_seasonal : categoryScores evalChanges 0 ChangeCategory.seasonal_agriculture = 0 := by
  norm_num [categoryScores, hasChange, cd_ndvi, cd_ndbi, cd_thermal, cd_bsi, cd_ndwi,
    cd_nbri, cd_evi, cd_turbidity, cd_algae, cd_mndwi]

theorem sc_heat : categoryScores evalChanges 0 ChangeCategory.urban_heat_island = 0 := by
  norm_num [categoryScores, hasChange, cd_ndvi, cd_ndbi, cd_thermal, cd_bsi, cd_ndwi,
    cd_nbri, cd_evi, cd_turbidity, cd_algae, cd_mndwi]

theorem sc_wildfire : categoryScores evalChanges 0 ChangeCategory.wildfire_damage = 0 := by
  norm_num [categoryScores, hasChange, cd_ndvi, cd_ndbi, cd_thermal, cd_bsi, cd_ndwi,
    cd_nbri, cd_evi, cd_turbidity, cd_algae, cd_mndwi]

theorem sc_normal : categoryScores evalChanges 0 ChangeCategory.normal_variation = 0 := by
  norm_num [categoryScores, hasChange, cd_ndvi, cd_ndbi, cd_thermal, cd_bsi, cd_ndwi,
    cd_nbri, cd_evi, cd_turbidity, cd_algae, cd_mndwi]

theorem sc_unknown : categoryScores evalChanges 0 ChangeCategory.unknown = 0 := by
  norm_num [categoryScores, hasChange, cd_ndvi, cd_ndbi, cd_thermal, cd_bsi, cd_ndwi,
    cd_nbri, cd_evi, cd_turbidity, cd_algae, cd_mndwi]

theorem eval_max :
    maxCategory (categoryScores evalChanges 0) = (ChangeCategory.illegal_construction, 3/5) := by
  norm_num [maxCategory, categoryOrder, List.foldl, sc_construction, sc_mining,
    sc_deforestation, sc_water_pollution, sc_coastal, sc_algal, sc_agri, sc_seasonal,
    sc_heat, sc_wildfire, sc_normal, sc_unknown]

theorem eval_rules :
    applyContextRules evalChanges 0 =
      (ChangeCategory.illegal_construction, 3/5, ["ndvi", "ndbi"]) := by
  simp only [applyContextRules, eval_max]
  norm_num [evalChanges, List.filter]

theorem eval_risk :
    calculateCompositeRisk evalChanges ChangeCategory.illegal_construction 0 = 1/4 := by
  have w1 : List.lookup "ndvi" constructionWeights = some (1/4) := rfl
  have w2 : List.lookup "ndbi" constructionWeights = some (2/5) := rfl
  have hc1 : (ChangeCategory.illegal_construction = ChangeCategory.illegal_construction) = True := by
    simp
  have hc2 : (ChangeCategory.illegal_construction = ChangeCategory.seasonal_agriculture) = False := by
    simp only [eq_iff_iff, iff_false]
    intro hcc
    exact ChangeCategory.noConfusion hcc
  norm_num [calculateCompositeRisk, evalChanges, List.foldl, w1, w2, hc1, hc2,
    abs_of_pos, abs_of_neg, min_def]

theorem eval_level : determineRiskLevel (1/4) (3/5) = "low" := by
  norm_num [determineRiskLevel]

theorem eval_evidence : getSupportingEvidence evalChanges = ["ndvi", "ndbi"] := rfl

theorem eval_analyze (stdq : List ℚ → ℚ) :
    analyze defaultAdj stdq evalCurrent evalPrevious none =
      { composite_risk_score := 1/4, risk_level := "low",
        category := ChangeCategory.illegal_construction, confidence := 3/5,
        primary_indicators := ["ndvi", "ndbi"], supporting_evidence := ["ndvi", "ndbi"],
        seasonal_likelihood := 0 } := by
  unfold analyze
  rw [eval_changes]
  dsimp only
  rw [eval_rules, eval_evidence]
  dsimp only
  rw [eval_risk, eval_level]

/-- C1 counterexample: on the spec's fixed input the code returns
`risk_level = "low"` (adjusted score 0.25 · 0.6 = 0.15 < 0.25), not a level
in {medium, high, critical}. -/
theorem fusionDeterminism_counterexample :
    (analyze defaultAdj (fun _ => 0) evalCurrent evalPrevious none).risk_level = "low" ∧
    ¬ ((analyze defaultAdj (fun _ => 0) evalCurrent evalPrevious none).risk_level = "medium" ∨
       (analyze defaultAdj (fun _ => 0) evalCurrent evalPrevious none).risk_level = "high" ∨
       (analyze defaultAdj (fun _ => 0) evalCurrent evalPrevious none).risk_level = "critical") := by
  rw [eval_analyze]
  exact ⟨rfl, by decide⟩

/-- C1 (amended): for the fixed inputs `current = {'ndvi': 0.3, 'ndbi': 0.35}`,
`previous = {'ndvi': 0.4, 'ndbi': 0.28}`, no historical indices and the
default `FusionConfig`, `analyze` returns category `illegal_construction`
with `composite_risk_score = 1/4 > 0` — but `risk_level` is `"low"`. -/
theorem fusionDeterminism_fixed_input (stdq : List ℚ → ℚ) :
    (analyze defaultAdj stdq evalCurrent evalPrevious none).category =
      ChangeCategory.illegal_construction ∧
    0 < (analyze defaultAdj stdq evalCurrent evalPrevious none).composite_risk_score ∧
    (analyze defaultAdj stdq evalCurrent evalPrevious none).risk_level = "low" := by
  rw [eval_analyze]
  exact ⟨rfl, by norm_num, rfl⟩

/-- C7: supporting evidence always holds at most 5 strings; but it does NOT
exclude the primary indicators — on the fixed input, "ndvi" and "ndbi" are
both primary indicators and both described in `supporting_evidence`,
contradicting the code's own comment ("Return all significant changes that
weren't primary indicators"). -/
theorem supportingEvidence_cap_and_overlap :
    (∀ (adj : String → ℚ) (stdq : List ℚ → ℚ) (cur prev : List (String × ℚ))
       (hist : Option (List (List (String × ℚ)))),
       (analyze adj stdq cur prev hist).supporting_evidence.length ≤ 5) ∧
    (analyze defaultAdj (fun _ => 0) evalCurrent evalPrevious none).primary_indicators =
      ["ndvi", "ndbi"] ∧
    (analyze defaultAdj (fun _ => 0) evalCurrent evalPrevious none).supporting_evidence =
      ["ndvi", "ndbi"] ∧
    "ndvi" ∈ (analyze defaultAdj (fun _ => 0) evalCurrent evalPrevious none).primary_indicators ∧
    "ndvi" ∈ (analyze defaultAdj (fun _ => 0) evalCurrent evalPrevious none).supporting_evidence := by
  refine ⟨?_, ?_⟩
  · intro adj stdq cur prev hist
    show (getSupportingEvidence (calculateIndexChanges adj cur prev)).length ≤ 5
    unfold getSupportingEvidence
    exact List.length_take_le 5 _
  · rw [eval_analyze]
    exact ⟨rfl, rfl, by decide, by decide⟩

/-- A successful association-list lookup exhibits a member pair. -/
theorem lookup_mem {l : List (String × ℚ)} {k : String} {v : ℚ}
    (h : l.lookup k = some v) : (k, v) ∈ l := by
  induction l with
  | nil => simp [List.lookup] at h
  | cons a t ih =>
    obtain ⟨k2, v2⟩ := a
    simp only [List.lookup] at h
    cases hkk : (k == k2) with
    | true =>
      rw [hkk] at h
      simp only [Option.some.injEq] at h
      subst h
      have : k = k2 := by
        have := hkk
        simpa [beq_iff_eq] using this
      subst this
      exact List.mem_cons_self _ _
    | false =>
      rw [hkk] at h
      exact List.mem_cons_of_mem _ (ih h)

/-- C2 counterexample: with previous ≈ 0 and the current value BELOW it
(previous 0, current −0.5), the code saturates the percent change to +100,
not −100 as the claim states. -/
theorem indexChange_negative_saturation_counterexample :
    (mkIndexChange defaultAdj "ndvi" (-(1/2)) 0).change_percent = 100 ∧
    (mkIndexChange defaultAdj "ndvi" (-(1/2)) 0).change_percent ≠ -100 := by
  norm_num [mkIndexChange, abs_of_pos, abs_of_neg]

/-- C2 (amended): for every index present in both maps, the percent change
is 0 when both previous and current are ~0, saturates to +100 whenever
previous is ~0 and |current − previous| ≥ 0.001 (regardless of the sign of
the change), equals `(current − previous)/|previous|·100` otherwise, and
`is_significant` holds exactly when |percent_change| exceeds the
region-calibrated threshold for the index times 100. -/
theorem indexChange_percent_and_significance
    (adj : String → ℚ) (current previous : List (String × ℚ)) (name : String) (c p : ℚ)
    (hc : current.lookup name = some c) (hp : previous.lookup name = some p) :
    mkIndexChange adj name c p ∈ calculateIndexChanges adj current previous ∧
    (|p| < 1/1000 → |c - p| < 1/1000 → (mkIndexChange adj name c p).change_percent = 0) ∧
    (|p| < 1/1000 → 1/1000 ≤ |c - p| → (mkIndexChange adj name c p).change_percent = 100) ∧
    (1/1000 ≤ |p| → (mkIndexChange adj name c p).change_percent = (c - p) / |p| * 100) ∧
    ((mkIndexChange adj name c p).is_significant = true ↔
      fusionThreshold adj name * 100 < |(mkIndexChange adj name c p).change_percent|) := by
  refine ⟨?_, ?_, ?_, ?_, ?_⟩
  · unfold calculateIndexChanges
    refine List.mem_filterMap.mpr ⟨(name, c), lookup_mem hc, ?_⟩
    rw [hp]
    rfl
  · intro h1 h2
    simp only [mkIndexChange]
    rw [if_pos h1, if_pos h2]
  · intro h1 h2
    simp only [mkIndexChange]
    rw [if_pos h1, if_neg (not_lt.mpr h2)]
  · intro h1
    simp only [mkIndexChange]
    rw [if_neg (not_lt.mpr h1)]
  · simp only [mkIndexChange, decide_eq_true_eq]

/-- C2 witness: the amended statement instantiated at the fixed NDVI pair
0.4 → 0.3 in singleton maps. -/
theorem indexChange_percent_and_significance_witness :
    List.lookup "ndvi" [("ndvi", (3:ℚ)/10)] = some (3/10) ∧
    List.lookup "ndvi" [("ndvi", (2:ℚ)/5)] = some (2/5) ∧
    (mkIndexChange defaultAdj "ndvi" (3/10) (2/5) ∈
      calculateIndexChanges defaultAdj [("ndvi", 3/10)] [("ndvi", 2/5)] ∧
    (|(2:ℚ)/5| < 1/1000 → |(3:ℚ)/10 - 2/5| < 1/1000 →
      (mkIndexChange defaultAdj "ndvi" (3/10) (2/5)).change_percent = 0) ∧
    (|(2:ℚ)/5| < 1/1000 → 1/1000 ≤ |(3:ℚ)/10 - 2/5| →
      (mkIndexChange defaultAdj "ndvi" (3/10) (2/5)).change_percent = 100) ∧
    (1/1000 ≤ |(2:ℚ)/5| →
      (mkIndexChange defaultAdj "ndvi" (3/10) (2/5)).change_percent =
        ((3:ℚ)/10 - 2/5) / |(2:ℚ)/5| * 100) ∧
    ((mkIndexChange defaultAdj "ndvi" (3/10) (2/5)).is_significant = true ↔
      fusionThreshold defaultAdj "ndvi" * 100 <
        |(mkIndexChange defaultAdj "ndvi" (3/10) (2/5)).change_percent|)) :=
  ⟨rfl, rfl,
   indexChange_percent_and_significance defaultAdj [("ndvi", 3/10)] [("ndvi", 2/5)]
     "ndvi" (3/10) (2/5) rfl rfl⟩

/-- With no shared indices every category rule misses, so every score is 0. -/
theorem categoryScores_nil (s : ℚ) (c : ChangeCategory) : categoryScores [] s c = 0 := by
  cases c <;> simp [categoryScores, hasChange, changeDict, List.find?]

/-- Python `max` over an all-zero score table keeps the first category. -/
theorem maxCategory_nil (s : ℚ) :
    maxCategory (categoryScores [] s) = (ChangeCategory.illegal_construction, 0) := by
  simp [maxCategory, categoryOrder, categoryScores_nil, lt_irrefl]

/-- With no changes the rules fall through to `NORMAL_VARIATION` with
confidence 0.8 and no indicators. -/
theorem applyContextRules_nil (s : ℚ) :
    applyContextRules [] s = (ChangeCategory.normal_variation, 4/5, []) := by
  simp only [applyContextRules, maxCategory_nil]
  norm_num

/-- Seasonal detection returns 0 when the change list has no NDVI entry. -/
theorem detectSeasonalPattern_nil (stdq : List ℚ → ℚ) (hh : List (List (String × ℚ))) :
    detectSeasonalPattern stdq [] hh = 0 := by
  simp [detectSeasonalPattern, changeDict, List.find?]

/-- The composite risk of an empty change list is 0 (the equal-weight dict
comprehension is empty, so no division by `len(changes)` ever runs). -/
theorem calculateCompositeRisk_nil (cat : ChangeCategory) (s : ℚ) :
    calculateCompositeRisk [] cat s = 0 := by
  unfold calculateCompositeRisk
  dsimp only [List.foldl]
  split_ifs <;> norm_num

/-- C10: whenever the current and previous index maps share no index name
(including when either is empty), `analyze` returns normally — category
`NORMAL_VARIATION`, confidence 0.8, empty indicator and evidence lists,
composite risk 0 and risk level "low" — for every regional adjustment,
`np.std` model and `historical_indices` argument. -/
theorem analyze_disjoint_indices_normal_variation
    (adj : String → ℚ) (stdq : List ℚ → ℚ) (current previous : List (String × ℚ))
    (historical : Option (List (List (String × ℚ))))
    (h : ∀ q ∈ current, previous.lookup q.1 = none) :
    analyze adj stdq current previous historical =
      { composite_risk_score := 0, risk_level := "low",
        category := ChangeCategory.normal_variation, confidence := 4/5,
        primary_indicators := [], supporting_evidence := [],
        seasonal_likelihood := 0 } := by
  have hch : calculateIndexChanges adj current previous = [] := by
    unfold calculateIndexChanges
    rw [List.filterMap_eq_nil_iff]
    intro q hq
    rw [h q hq]
    rfl
  unfold analyze
  rw [hch]
  dsimp only
  have hs : (match historical with
      | none => (0:ℚ)
      | some hh => if hh.isEmpty then 0 else detectSeasonalPattern stdq [] hh) = 0 := by
    cases historical with
    | none => rfl
    | some hh =>
      by_cases he : hh.isEmpty <;> simp [he, detectSeasonalPattern_nil]
  rw [hs, applyContextRules_nil]
  dsimp only
  rw [calculateCompositeRisk_nil]
  norm_num [determineRiskLevel, getSupportingEvidence]

/-- C10 witness: disjoint singleton maps with a non-empty historical list. -/
theorem analyze_disjoint_indices_normal_variation_witness :
    (∀ q ∈ [("ndvi", (1:ℚ))], List.lookup q.1 [("ndbi", (2:ℚ))] = none) ∧
    analyze defaultAdj (fun _ => 7) [("ndvi", 1)] [("ndbi", 2)]
        (some [[("ndvi", 5)]]) =
      { composite_risk_score := 0, risk_level := "low",
        category := ChangeCategory.normal_variation, confidence := 4/5,
        primary_indicators := [], supporting_evidence := [],
        seasonal_likelihood := 0 } :=
  ⟨fun q hq => by rw [List.mem_singleton] at hq; subst hq; rfl,
   analyze_disjoint_indices_normal_variation defaultAdj (fun _ => 7)
     [("ndvi", 1)] [("ndbi", 2)] (some [[("ndvi", 5)]])
     (fun q hq => by rw [List.mem_singleton] at hq; subst hq; rfl)⟩


/-- C8: `analyze_temporal_trends` fails with the insufficient-data error
exactly when fewer than 3 usable points (records with a date and a non-NaN
value for the requested index) are supplied, and returns a `TemporalResult`
otherwise. -/
theorem analyzeTemporalTrends_insufficient_data_iff
    (data : List TemporalRecord) (indexName : String) (critical : Option ℚ) :
    (analyzeTemporalTrends data indexName critical = .error .insufficientData ↔
      (extractTimeSeries data).length < 3) ∧
    ((∃ r, analyzeTemporalTrends data indexName critical = .ok r) ↔
      3 ≤ (extractTimeSeries data).length) := by
  unfold analyzeTemporalTrends
  by_cases h1 : data.length < 3
  · have hle : (extractTimeSeries data).length ≤ data.length := by
      unfold extractTimeSeries
      exact List.length_filterMap_le _ _
    have h2 : (extractTimeSeries data).length < 3 := lt_of_le_of_lt hle h1
    simp [h1, h2, Nat.not_le.mpr h2]
  · by_cases h2 : (extractTimeSeries data).length < 3
    · simp [h1, h2, Nat.not_le.mpr h2]
    · simp [h1, h2, Nat.not_lt.mp h2]


/-! ### Spectral analyzer proofs -/

/-- Every computed index value is clipped into [-1.5, 1.5]. -/
theorem calculateAllIndices_range (bm : List (String × ℚ)) :
    ∀ q ∈ calculateAllIndices bm, -(3/2) ≤ q.2 ∧ q.2 ≤ 3/2 := by
  intro q hq
  unfold calculateAllIndices at hq
  obtain ⟨p, _, hpe⟩ := List.mem_map.mp hq
  subst hpe
  unfold clipIndex
  constructor
  · exact le_min (le_max_right _ _) (by norm_num)
  · exact min_le_right _ _

set_option maxHeartbeats 1000000 in
/-- Index keys computed from a 4-band pixel. -/
theorem spectralKeys4 (b1 b2 b3 b4 : ℚ) :
    (calculateAllIndices [("blue", b1), ("green", b2), ("red", b3), ("nir", b4)]).map
      Prod.fst = ["ndvi", "evi", "ndwi", "bai", "savi", "turbidity_index"] := rfl

set_option maxHeartbeats 1000000 in
/-- Index keys computed from a 6-band pixel. -/
theorem spectralKeys6 (b1 b2 b3 b4 b5 b6 : ℚ) :
    (calculateAllIndices [("blue", b1), ("green", b2), ("red", b3), ("nir", b4),
        ("red_edge_1", b5), ("red_edge_2", b6)]).map Prod.fst =
      ["ndvi", "evi", "ndwi", "bai", "savi", "algae_index", "turbidity_index"] := rfl

set_option maxHeartbeats 1000000 in
/-- Index keys computed from an 8-band pixel. -/
theorem spectralKeys8 (b1 b2 b3 b4 b5 b6 b7 b8 : ℚ) :
    (calculateAllIndices [("blue", b1), ("green", b2), ("red", b3), ("nir", b4),
        ("red_edge_1", b5), ("red_edge_2", b6), ("red_edge_3", b7), ("swir_1", b8)]).map
      Prod.fst =
      ["ndvi", "evi", "ndwi", "mndwi", "bsi", "ndbi", "bai", "savi", "thermal_proxy",
       "algae_index", "turbidity_index"] := rfl

set_option maxHeartbeats 1000000 in
/-- Index keys computed from a 9-band pixel. -/
theorem spectralKeys9 (b1 b2 b3 b4 b5 b6 b7 b8 b9 : ℚ) :
    (calculateAllIndices [("blue", b1), ("green", b2), ("red", b3), ("nir", b4),
        ("red_edge_1", b5), ("red_edge_2", b6), ("red_edge_3", b7), ("swir_1", b8),
        ("swir_2", b9)]).map Prod.fst =
      ["ndvi", "evi", "ndwi", "mndwi", "bsi", "ndbi", "bai", "savi", "nbri",
       "thermal_proxy", "algae_index", "turbidity_index"] := rfl

/-- A grayscale pixel yields no indices. -/
theorem spectralKeysGray (v : ℚ) :
    (calculateAllIndices [("grayscale", v)]).map Prod.fst = [] := rfl

/-- Band keys of a grayscale pixel. -/
theorem bandKeysGray (v : ℚ) :
    ([("grayscale", v)] : List (String × ℚ)).map Prod.fst = ["grayscale"] := rfl

/-- Band keys of a 4-band pixel. -/
theorem bandKeys4 (b1 b2 b3 b4 : ℚ) :
    ([("blue", b1), ("green", b2), ("red", b3), ("nir", b4)] : List (String × ℚ)).map
      Prod.fst = ["blue", "green", "red", "nir"] := rfl

/-- Band keys of a 6-band pixel. -/
theorem bandKeys6 (b1 b2 b3 b4 b5 b6 : ℚ) :
    ([("blue", b1), ("green", b2), ("red", b3), ("nir", b4), ("red_edge_1", b5),
        ("red_edge_2", b6)] : List (String × ℚ)).map Prod.fst =
      ["blue", "green", "red", "nir", "red_edge_1", "red_edge_2"] := rfl

/-- Band keys of an 8-band pixel. -/
theorem bandKeys8 (b1 b2 b3 b4 b5 b6 b7 b8 : ℚ) :
    ([("blue", b1), ("green", b2), ("red", b3), ("nir", b4), ("red_edge_1", b5),
        ("red_edge_2", b6), ("red_edge_3", b7), ("swir_1", b8)] : List (String × ℚ)).map
      Prod.fst =
      ["blue", "green", "red", "nir", "red_edge_1", "red_edge_2", "red_edge_3",
       "swir_1"] := rfl

/-- Band keys of a 9-band pixel. -/
theorem bandKeys9 (b1 b2 b3 b4 b5 b6 b7 b8 b9 : ℚ) :
    ([("blue", b1), ("green", b2), ("red", b3), ("nir", b4), ("red_edge_1", b5),
        ("red_edge_2", b6), ("red_edge_3", b7), ("swir_1", b8),
        ("swir_2", b9)] : List (String × ℚ)).map Prod.fst =
      ["blue", "green", "red", "nir", "red_edge_1", "red_edge_2", "red_edge_3",
       "swir_1", "swir_2"] := rfl

/-- C6: for every image `extract_all_features` accepts, every computed
spectral index value lies in [-1.5, 1.5], and the index map contains an
index exactly when all bands its formula requires are present — indices
with missing bands are omitted without error. -/
theorem spectral_indices_range_and_presence (img : SpecImage) (bm : List (String × ℚ))
    (hok : extractBands img = .ok bm) :
    (∀ q ∈ calculateAllIndices bm, -(3/2) ≤ q.2 ∧ q.2 ≤ 3/2) ∧
    (∀ e ∈ requiredBands,
      ((calculateAllIndices bm).map Prod.fst).contains e.1 =
        e.2.all (fun b => (bm.map Prod.fst).contains b)) := by
  refine ⟨calculateAllIndices_range bm, ?_⟩
  cases img with
  | gray v =>
    simp only [extractBands, Except.ok.injEq] at hok
    subst hok
    rw [spectralKeysGray, bandKeysGray]
    decide
  | multi bands =>
    simp only [extractBands] at hok
    by_cases h4 : bands.length < 4
    · rw [if_pos h4] at hok
      exact Except.noConfusion hok
    · rw [if_neg h4] at hok
      by_cases h6 : 6 ≤ bands.length <;> by_cases h8 : 8 ≤ bands.length <;>
        by_cases h9 : 9 ≤ bands.length
      · rw [if_pos h6, if_pos h8, if_pos h9] at hok
        simp only [List.cons_append, List.nil_append, Except.ok.injEq] at hok
        subst hok
        rw [spectralKeys9, bandKeys9]
        decide
      · rw [if_pos h6, if_pos h8, if_neg h9] at hok
        simp only [List.cons_append, List.nil_append, List.append_nil,
          Except.ok.injEq] at hok
        subst hok
        rw [spectralKeys8, bandKeys8]
        decide
      · exfalso; omega
      · rw [if_pos h6, if_neg h8, if_neg h9] at hok
        simp only [List.cons_append, List.nil_append, List.append_nil,
          Except.ok.injEq] at hok
        subst hok
        rw [spectralKeys6, bandKeys6]
        decide
      · exfalso; omega
      · exfalso; omega
      · exfalso; omega
      · rw [if_neg h6, if_neg h8, if_neg h9] at hok
        simp only [List.cons_append, List.nil_append, List.append_nil,
          Except.ok.injEq] at hok
        subst hok
        rw [spectralKeys4, bandKeys4]
        decide

/-- C6 witness: a 4-band pixel. -/
theorem spectral_indices_range_and_presence_witness :
    extractBands (SpecImage.multi [1, 2, 3, 4]) =
      Except.ok [("blue", 1), ("green", 2), ("red", 3), ("nir", 4)] ∧
    ((∀ q ∈ calculateAllIndices [("blue", (1:ℚ)), ("green", 2), ("red", 3), ("nir", 4)],
        -(3/2) ≤ q.2 ∧ q.2 ≤ 3/2) ∧
     (∀ e ∈ requiredBands,
       ((calculateAllIndices [("blue", (1:ℚ)), ("green", 2), ("red", 3),
           ("nir", 4)]).map Prod.fst).contains e.1 =
         e.2.all (fun b =>
           (([("blue", (1:ℚ)), ("green", 2), ("red", 3), ("nir", 4)]).map
             Prod.fst).contains b))) :=
  ⟨rfl, spectral_indices_range_and_presence (SpecImage.multi [1, 2, 3, 4])
    [("blue", 1), ("green", 2), ("red", 3), ("nir", 4)] rfl⟩

end GeoGuardian
